import Mathlib

/-!
Verification of the oracle-core box-validation and action-construction core.

The definitions below are a shallow embedding of the Rust sources:
  src/core/src/contracts/pool.rs
  src/core/src/box_kind/pool_box.rs
  src/core/src/box_kind/refresh_box.rs
  src/core/src/commands/publish_data_point.rs
  src/core/src/cli_commands/transfer_oracle_token.rs
Machine integers are modelled as Nat/Int with explicit two's-complement
reductions where the source casts; fallible code returns Except; a Rust
panic (reachable `unwrap`) is modelled as `none` in an `Option`-wrapped
result.  Rust `f64` arithmetic is modelled exactly: an IEEE-754 binary64
value is a rational together with the special values, and every operation
rounds to nearest, ties to even, exactly as the hardware does.
-/

deriving instance DecidableEq for Except

/-! ## Basic chain data model (ergo-lib types used by the sources) -/

/-- A token id (32-byte digest in ergo-lib), abstracted to a Nat code. -/
abbrev TokenId := Nat

/-- Positional lookup in a list (ergo-lib's `.get(i)` on token/constant
vectors). -/
def listGet? {A : Type} : List A → Nat → Option A
  | [], _ => none
  | a :: _, 0 => some a
  | _ :: as, n + 1 => listGet? as n

/-- `ergo_lib::ergotree_ir::chain::token::Token`: an id with a u64 amount. -/
structure Token where
  tokenId : TokenId
  amount : Nat
  deriving DecidableEq, Repr

/-- A typed script/register constant (`ergo_lib::...::mir::constant::Constant`).
Only the constant types the sources touch are distinguished: i64 (`SLong`),
i32 (`SInt`), a group element (public key) and a token id (byte collection). -/
inductive Constant where
  | longC (v : Int)
  | intC (v : Int)
  | groupElementC (pk : Nat)
  | tokenIdC (id : TokenId)
  deriving DecidableEq, Repr

/-- `ergo_lib::...::ergo_tree::ErgoTree`.  `constants = some cs` models a tree
whose constant segment parses to the list `cs`; `constants = none` models a
tree on which `get_constants()`/`get_constant(_)` return `Err` (an
unparseable tree). -/
structure ErgoTree where
  constants : Option (List Constant)
  deriving DecidableEq, Repr

/-- `ErgoTree::get_constant(index) -> Result<Option<Constant>, _>`. -/
def ErgoTree.get_constant (t : ErgoTree) (i : Nat) : Except Unit (Option Constant) :=
  match t.constants with
  | none => .error ()
  | some cs => .ok (listGet? cs i)

/-- `ergo_lib::...::chain::ergo_box::ErgoBox`.  `boxId` abstracts the content
hash; `tokens` is `Option` of a (nonempty in practice) token list; only the
registers R4-R6 are touched by the sources. -/
structure ErgoBox where
  boxId : Nat
  value : Nat
  ergoTree : ErgoTree
  tokens : Option (List Token)
  r4 : Option Constant
  r5 : Option Constant
  r6 : Option Constant
  creationHeight : Nat
  deriving DecidableEq, Repr

/-- `ergo_lib::...::chain::ergo_box::ErgoBoxCandidate` (an output box under
construction; same shape as a box, without an id). -/
structure ErgoBoxCandidate where
  value : Nat
  ergoTree : ErgoTree
  tokens : Option (List Token)
  r4 : Option Constant
  r5 : Option Constant
  r6 : Option Constant
  creationHeight : Nat
  deriving DecidableEq, Repr

instance : Inhabited ErgoBoxCandidate :=
  ⟨{ value := 0, ergoTree := ⟨some []⟩, tokens := none,
     r4 := none, r5 := none, r6 := none, creationHeight := 0 }⟩

/-- Treating a built candidate as a confirmed box (the ledger assigns the id). -/
def ErgoBoxCandidate.toBox (c : ErgoBoxCandidate) (id : Nat) : ErgoBox :=
  { boxId := id, value := c.value, ergoTree := c.ergoTree, tokens := c.tokens,
    r4 := c.r4, r5 := c.r5, r6 := c.r6, creationHeight := c.creationHeight }

/-- Per-input context extension: a map from small integer keys to constants. -/
abbrev ContextExtension := List (Nat × Constant)

/-- One input of an unsigned transaction: the spent box id plus its context
extension (`ergo_lib::...::transaction::unsigned::UnsignedInput`). -/
structure UnsignedInput where
  boxId : Nat
  extension : ContextExtension
  deriving DecidableEq, Repr

instance : Inhabited UnsignedInput := ⟨⟨0, []⟩⟩

/-- `ergo_lib::chain::transaction::unsigned::UnsignedTransaction`. -/
structure UnsignedTransaction where
  inputs : List UnsignedInput
  outputCandidates : List ErgoBoxCandidate
  deriving DecidableEq, Repr

/-- `ergo_lib::...::chain::address::Address`: only the P2PK / non-P2PK split
matters to the sources. -/
inductive Address where
  | p2pk (pk : Nat)
  | p2s (tree : ErgoTree)
  | p2sh (hash : Nat)
  deriving DecidableEq, Repr

/-- Opaque error of the box-source collaborators (`crate::oracle_state::StageError`,
whose definition is outside the given sources); only its identity matters. -/
structure StageError where
  code : Nat
  deriving DecidableEq, Repr

/-! ## Machine-integer casts -/

/-- Rust `as u32` on an `i32` value (two's-complement reinterpretation). -/
def i32AsU32 (v : Int) : Nat := (v.emod 4294967296).toNat

/-- Rust `as i32` on a `u32` value (two's-complement reinterpretation). -/
def u32AsI32 (n : Nat) : Int :=
  let m := n % 4294967296
  if m < 2147483648 then (m : Int) else (m : Int) - 4294967296

/-! ## Exact IEEE-754 binary64 model

`compute_new_datapoint` in publish_data_point.rs works on Rust `f64`.  A
finite double is modelled canonically as a significand-exponent pair:
`finite m e` denotes the real value m * 2^e, with either 2^52 ≤ |m| < 2^53
and e ≥ -1074 (normal numbers), or 0 < |m| < 2^52 and e = -1074
(subnormals), or m = 0 and e = 0 (zero).  This representation is unique, so
structural equality is value equality.  Every arithmetic operation rounds
its exact rational result to nearest, ties to even — precisely the IEEE-754
semantics Rust's f64 implements.  Only Nat/Int primitives are used, so all
of this evaluates inside the kernel. -/

inductive F64 where
  | finite (m : Int) (e : Int)
  | posInf
  | negInf
  | nan
  deriving DecidableEq, Repr

/-- Round the fraction n/d (d > 0) to the nearest integer, ties to even. -/
def rndTiesEven (n d : Nat) : Nat :=
  let q := n / d
  let r := n % d
  if 2 * r < d then q
  else if d < 2 * r then q + 1
  else if q % 2 = 0 then q else q + 1

/-- Halve the value's scale while its fractional part n/d is ≥ 2^53,
keeping the invariant value = (n/d) * 2^s. -/
def scaleDownF64 : Nat → Nat → Nat → Int → Nat × Nat × Int
  | 0, n, d, s => (n, d, s)
  | fuel + 1, n, d, s =>
      if 9007199254740992 * d ≤ n then scaleDownF64 fuel n (2 * d) (s + 1)
      else (n, d, s)

/-- Double the value's scale while its fractional part n/d is < 2^52,
keeping the invariant value = (n/d) * 2^s. -/
def scaleUpF64 : Nat → Nat → Nat → Int → Nat × Nat × Int
  | 0, n, d, s => (n, d, s)
  | fuel + 1, n, d, s =>
      if n < 4503599627370496 * d then scaleUpF64 fuel (2 * n) d (s - 1)
      else (n, d, s)

/-- Round the positive rational (n/d) * 2^e to the nearest binary64 value
(round to nearest, ties to even; subnormal and overflow ranges included). -/
def roundPosF64 (n d : Nat) (e : Int) : F64 :=
  if n = 0 then .finite 0 0
  else
    match scaleDownF64 4000 n d e with
    | (n1, d1, s1) =>
    match scaleUpF64 4000 n1 d1 s1 with
    | (n2, d2, s2) =>
      if s2 < -1074 then
        let m := rndTiesEven n2 (d2 * 2 ^ (-(s2 + 1074)).toNat)
        if m = 0 then .finite 0 0 else .finite (m : Int) (-1074)
      else
        let m := rndTiesEven n2 d2
        let p : Nat × Int :=
          if m = 9007199254740992 then (4503599627370496, s2 + 1) else (m, s2)
        if 971 < p.2 then .posInf else .finite (p.1 : Int) p.2

/-- Negate a binary64 value. -/
def negF64 : F64 → F64
  | .finite m e => .finite (-m) e
  | .posInf => .negInf
  | .negInf => .posInf
  | .nan => .nan

/-- Round the rational (a/b) * 2^e (b ≠ 0) to the nearest binary64 value. -/
def roundFracF64 (a b : Int) (e : Int) : F64 :=
  if (a < 0) ≠ (b < 0) then negF64 (roundPosF64 a.natAbs b.natAbs e)
  else roundPosF64 a.natAbs b.natAbs e

/-- Rust `i64 as f64` (rounds once the magnitude exceeds 2^53). -/
def i64ToF64 (v : Int) : F64 := roundFracF64 v 1 0

/-- f64 division; a finite nonzero value divided by zero follows IEEE
(±inf; 0/0 is NaN).  The special-operand cases are never reached by the
sources but follow IEEE where determined. -/
def f64Div : F64 → F64 → F64
  | .finite m1 e1, .finite m2 e2 =>
      if m2 = 0 then
        if m1 = 0 then .nan else if m1 < 0 then .negInf else .posInf
      else roundFracF64 m1 m2 (e1 - e2)
  | .nan, _ => .nan
  | _, .nan => .nan
  | .posInf, .finite _ _ => .posInf
  | .negInf, .finite _ _ => .negInf
  | .finite _ _, .posInf => .finite 0 0
  | .finite _ _, .negInf => .finite 0 0
  | _, _ => .nan

/-- f64 multiplication (the sources only multiply finite values). -/
def f64Mul : F64 → F64 → F64
  | .finite m1 e1, .finite m2 e2 => roundFracF64 (m1 * m2) 1 (e1 + e2)
  | _, _ => .nan

/-- Exact order on two finite binary64 values m1*2^e1 < m2*2^e2. -/
def finiteLtF64 (m1 e1 m2 e2 : Int) : Bool :=
  if e1 ≤ e2 then m1 < m2 * ((2 ^ (e2 - e1).toNat : Nat) : Int)
  else m1 * ((2 ^ (e1 - e2).toNat : Nat) : Int) < m2

/-- f64 strict greater-than: any comparison with NaN is false. -/
def f64Gt : F64 → F64 → Bool
  | .nan, _ => false
  | _, .nan => false
  | .posInf, .posInf => false
  | .posInf, _ => true
  | _, .posInf => false
  | .negInf, _ => false
  | .finite _ _, .negInf => true
  | .finite m1 e1, .finite m2 e2 => finiteLtF64 m2 e2 m1 e1

/-- f64 strict less-than. -/
def f64Lt (a b : F64) : Bool := f64Gt b a

/-- Rust `f64 as i64`: truncation toward zero, saturating; NaN gives 0. -/
def f64AsI64 (f : F64) : Int :=
  match f with
  | .finite m e =>
      let t : Nat :=
        if 0 ≤ e then m.natAbs * 2 ^ e.toNat else m.natAbs / 2 ^ (-e).toNat
      if m < 0 then
        if 9223372036854775808 ≤ t then -9223372036854775808 else -(t : Int)
      else
        if 9223372036854775807 ≤ t then 9223372036854775807 else (t : Int)
  | .posInf => 9223372036854775807
  | .negInf => -9223372036854775808
  | .nan => 0

/-- The f64 value of the decimal literal `2.00`. -/
def lit2 : F64 := roundFracF64 2 1 0
/-- The f64 value of the decimal literal `0.50`. -/
def litHalf : F64 := roundFracF64 1 2 0
/-- The f64 value of the decimal literal `0.9951` (nearest double). -/
def lit9951 : F64 := roundFracF64 9951 10000 0
/-- The f64 value of the decimal literal `1.0049` (nearest double). -/
def lit10049 : F64 := roundFracF64 10049 10000 0

/-! ## Price policy: `compute_new_datapoint` (publish_data_point.rs) -/

/-- `compute_new_datapoint(datapoint, old_datapoint)` from
publish_data_point.rs: the 0.49% smoothing cap on the published rate,
computed in f64 exactly as the source does. -/
def compute_new_datapoint (datapoint old_datapoint : Int) : Int :=
  let difference : F64 := f64Div (i64ToF64 datapoint) (i64ToF64 old_datapoint)
  if f64Gt difference lit2 then datapoint
  else if f64Lt difference litHalf then datapoint
  else if f64Lt difference lit9951 then
    f64AsI64 (f64Mul (i64ToF64 old_datapoint) lit9951)
  else if f64Gt difference lit10049 then
    f64AsI64 (f64Mul (i64ToF64 old_datapoint) lit10049)
  else datapoint

/-! ## Pool contract (contracts/pool.rs) -/

/-- `PoolContractParameters` (the fields `from_ergo_tree` reads: the constant
indices at which the two identity-token ids are embedded, and the expected
ids themselves). -/
structure PoolContractParameters where
  refreshNftIndex : Nat
  updateNftIndex : Nat
  refreshNftTokenId : TokenId
  updateNftTokenId : TokenId
  deriving DecidableEq, Repr

/-- `TryExtractFromError` payload (the message is irrelevant; the offending
constant identifies the failure). -/
structure TryExtractFromError where
  found : Constant
  deriving DecidableEq, Repr

/-- `PoolContractError` from contracts/pool.rs (the variants reachable from
`from_ergo_tree`). -/
inductive PoolContractError where
  | noUpdateNftId
  | noRefreshNftId
  | unknownRefreshNftId
  | unknownUpdateNftId
  | tryExtractFrom (e : TryExtractFromError)
  deriving DecidableEq, Repr

/-- `PoolContract` from contracts/pool.rs. -/
structure PoolContract where
  ergoTree : ErgoTree
  refreshNftIndex : Nat
  updateNftIndex : Nat
  deriving DecidableEq, Repr

/-- `Constant::try_extract_into::<TokenId>()`. -/
def tryExtractTokenId (c : Constant) : Except TryExtractFromError TokenId :=
  match c with
  | .tokenIdC id => .ok id
  | c => .error ⟨c⟩

/-- `PoolContract::from_ergo_tree` (contracts/pool.rs lines 56-97).  The
function first executes `dbg!(ergo_tree.get_constants().unwrap())`, which
panics when the tree's constants cannot be parsed; the panic is modelled as
`none`.  Otherwise it reads the constant at each declared index, giving
`NoRefreshNftId`/`NoUpdateNftId` when there is no constant at the index,
`TryExtractFrom` when the constant is not a token id, and
`UnknownRefreshNftId`/`UnknownUpdateNftId` on an id mismatch. -/
def PoolContract.from_ergo_tree (ergo_tree : ErgoTree)
    (parameters : PoolContractParameters) :
    Option (Except PoolContractError PoolContract) :=
  match ergo_tree.constants with
  | none => none
  | some cs =>
    match listGet? cs parameters.refreshNftIndex with
    | none => some (.error .noRefreshNftId)
    | some c0 =>
      match tryExtractTokenId c0 with
      | .error e => some (.error (.tryExtractFrom e))
      | .ok tokenId =>
        if tokenId ≠ parameters.refreshNftTokenId then
          some (.error .unknownRefreshNftId)
        else
          match listGet? cs parameters.updateNftIndex with
          | none => some (.error .noUpdateNftId)
          | some c1 =>
            match tryExtractTokenId c1 with
            | .error e => some (.error (.tryExtractFrom e))
            | .ok tokenId2 =>
              if tokenId2 ≠ parameters.updateNftTokenId then
                some (.error .unknownUpdateNftId)
              else
                some (.ok { ergoTree := ergo_tree,
                            refreshNftIndex := parameters.refreshNftIndex,
                            updateNftIndex := parameters.updateNftIndex })

/-- `PoolContract::ergo_tree()`. -/
def PoolContract.ergo_tree (c : PoolContract) : ErgoTree := c.ergoTree

/-! ## Pool box (box_kind/pool_box.rs) -/

/-- `PoolBoxError` from box_kind/pool_box.rs. -/
inductive PoolBoxError where
  | noTokens
  | noDataPoint
  | noEpochCounter
  | noRewardToken
  | poolContractError (e : PoolContractError)
  | unknownPoolNftId
  | unknownRewardTokenId
  deriving DecidableEq, Repr

/-- `PoolBoxWrapperInputs` from box_kind/pool_box.rs: the contract inputs
plus the ids expected in token slots 0 and 1. -/
structure PoolBoxWrapperInputs where
  contractInputs : PoolContractParameters
  poolNftTokenId : TokenId
  rewardTokenId : TokenId
  deriving DecidableEq, Repr

/-- `PoolBoxWrapper` from box_kind/pool_box.rs. -/
structure PoolBoxWrapper where
  ergoBox : ErgoBox
  contract : PoolContract
  deriving DecidableEq, Repr

/-- `Constant::try_extract_into::<i64>().is_err()`. -/
def extractI64Fails (c : Constant) : Bool :=
  match c with
  | .longC _ => false
  | _ => true

/-- `Constant::try_extract_into::<i32>().is_err()`. -/
def extractI32Fails (c : Constant) : Bool :=
  match c with
  | .intC _ => false
  | _ => true

/-- `PoolBoxWrapper::new` (box_kind/pool_box.rs lines 51-91): token slot 0
must carry the expected pool-NFT id, R4 must decode as i64, R5 as i32,
token slot 1 must carry the expected reward-token id, and the script must
pass `PoolContract::from_ergo_tree`.  A panic inside the contract check
(see `PoolContract.from_ergo_tree`) propagates as `none`. -/
def PoolBoxWrapper.new (b : ErgoBox) (inputs : PoolBoxWrapperInputs) :
    Option (Except PoolBoxError PoolBoxWrapper) :=
  match b.tokens with
  | none => some (.error .noTokens)
  | some ts =>
    match listGet? ts 0 with
    | none => some (.error .noTokens)
    | some token =>
      if token.tokenId ≠ inputs.poolNftTokenId then
        some (.error .unknownPoolNftId)
      else
        match b.r4 with
        | none => some (.error .noDataPoint)
        | some c4 =>
          if extractI64Fails c4 then some (.error .noDataPoint)
          else
            match b.r5 with
            | none => some (.error .noEpochCounter)
            | some c5 =>
              if extractI32Fails c5 then some (.error .noEpochCounter)
              else
                match listGet? ts 1 with
                | none => some (.error .noRewardToken)
                | some reward_token =>
                  if reward_token.tokenId ≠ inputs.rewardTokenId then
                    some (.error .unknownRewardTokenId)
                  else
                    match PoolContract.from_ergo_tree b.ergoTree
                        inputs.contractInputs with
                    | none => none
                    | some (.error e) => some (.error (.poolContractError e))
                    | some (.ok contract) => some (.ok ⟨b, contract⟩)

/-- `PoolBox::pool_nft_token` for `PoolBoxWrapper` (`tokens[0]`, unwrapped;
the default is unreachable on validated wrappers). -/
def PoolBoxWrapper.pool_nft_token (w : PoolBoxWrapper) : Token :=
  (listGet? (w.ergoBox.tokens.getD []) 0).getD ⟨0, 0⟩

/-- `PoolBox::reward_token` for `PoolBoxWrapper` (`tokens[1]`, unwrapped). -/
def PoolBoxWrapper.reward_token (w : PoolBoxWrapper) : Token :=
  (listGet? (w.ergoBox.tokens.getD []) 1).getD ⟨0, 0⟩

/-- `PoolBox::epoch_counter` for `PoolBoxWrapper`: R5 extracted as i32 and
cast `as u32`. -/
def PoolBoxWrapper.epoch_counter (w : PoolBoxWrapper) : Nat :=
  match w.ergoBox.r5 with
  | some (.intC v) => i32AsU32 v
  | _ => 0

/-- `PoolBox::rate` for `PoolBoxWrapper`: R4 extracted as i64. -/
def PoolBoxWrapper.rate (w : PoolBoxWrapper) : Int :=
  match w.ergoBox.r4 with
  | some (.longC v) => v
  | _ => 0

/-- `PoolBox::get_box` for `PoolBoxWrapper`. -/
def PoolBoxWrapper.get_box (w : PoolBoxWrapper) : ErgoBox := w.ergoBox

/-- `make_pool_box_candidate` (box_kind/pool_box.rs lines 189-204): builder
with the contract's script, R4 := datapoint (i64), R5 := epoch counter
(i32), tokens [pool NFT, reward token]. -/
def make_pool_box_candidate (contract : PoolContract) (datapoint : Int)
    (epoch_counter : Int) (pool_nft_token : Token) (reward_token : Token)
    (value : Nat) (creation_height : Nat) : ErgoBoxCandidate :=
  { value := value
    ergoTree := contract.ergo_tree
    tokens := some [pool_nft_token, reward_token]
    r4 := some (.longC datapoint)
    r5 := some (.intC epoch_counter)
    r6 := none
    creationHeight := creation_height }

/-! ## Oracle box wrapper

Modelled from the spec: the oracle box wrapper type (box_kind/oracle_box.rs
is not among the given sources; only its trait use sites are).  Per spec
section 3 an oracle box is either Posted (identity token in slot 0, reward
token in slot 1, submitter public key in R4, epoch counter in R5, rate in
R6) or Collected (same, without a rate), and the wrapper's accessors read
exactly those fields of the validated box. -/
inductive OracleBoxWrapper where
  | posted (b : ErgoBox)
  | collected (b : ErgoBox)
  deriving DecidableEq, Repr

/-- `OracleBox::get_box`. -/
def OracleBoxWrapper.get_box : OracleBoxWrapper → ErgoBox
  | .posted b => b
  | .collected b => b

/-- Modelled from the spec: `OracleBox::public_key` reads the submitter's
public key from R4 of the validated box. -/
def OracleBoxWrapper.public_key (w : OracleBoxWrapper) : Nat :=
  match w.get_box.r4 with
  | some (.groupElementC pk) => pk
  | _ => 0

/-- Modelled from the spec: `OracleBox::oracle_token` is token slot 0. -/
def OracleBoxWrapper.oracle_token (w : OracleBoxWrapper) : Token :=
  (listGet? (w.get_box.tokens.getD []) 0).getD ⟨0, 0⟩

/-- Modelled from the spec: `OracleBox::reward_token` is token slot 1. -/
def OracleBoxWrapper.reward_token (w : OracleBoxWrapper) : Token :=
  (listGet? (w.get_box.tokens.getD []) 1).getD ⟨0, 0⟩

/-- Modelled from the spec: `OracleBox::rate` is the rate in R6 for a
Posted box; a Collected box has had its rate cleared. -/
def OracleBoxWrapper.rate (w : OracleBoxWrapper) : Int :=
  match w with
  | .posted b =>
      match b.r6 with
      | some (.longC v) => v
      | _ => 0
  | .collected _ => 0

/-- Modelled from the spec: `OracleBox::epoch_counter` is the epoch counter
in R5, exposed as unsigned. -/
def OracleBoxWrapper.epoch_counter (w : OracleBoxWrapper) : Nat :=
  match w.get_box.r5 with
  | some (.intC v) => i32AsU32 v
  | _ => 0

/-- Modelled from the spec: the bound oracle contract is the validated
box's own script. -/
structure OracleContract where
  ergoTree : ErgoTree
  deriving DecidableEq, Repr

/-- Modelled from the spec: `OracleBox::contract`. -/
def OracleBoxWrapper.contract (w : OracleBoxWrapper) : OracleContract :=
  ⟨w.get_box.ergoTree⟩

/-- Modelled from the spec: `make_oracle_box_candidate` builds a Posted
oracle output: the contract's script, R4 := public key, R5 := epoch counter,
R6 := rate, tokens [oracle token, reward token]. -/
def make_oracle_box_candidate (contract : OracleContract) (public_key : Nat)
    (rate : Int) (epoch_counter : Int) (oracle_token reward_token : Token)
    (value : Nat) (creation_height : Nat) : ErgoBoxCandidate :=
  { value := value
    ergoTree := contract.ergoTree
    tokens := some [oracle_token, reward_token]
    r4 := some (.groupElementC public_key)
    r5 := some (.intC epoch_counter)
    r6 := some (.longC rate)
    creationHeight := creation_height }

/-- Modelled from the spec: `make_collected_oracle_box_candidate` builds a
Collected oracle output: script, R4 := public key, tokens, no rate/epoch
registers. -/
def make_collected_oracle_box_candidate (contract : OracleContract)
    (public_key : Nat) (oracle_token reward_token : Token)
    (value : Nat) (creation_height : Nat) : ErgoBoxCandidate :=
  { value := value
    ergoTree := contract.ergoTree
    tokens := some [oracle_token, reward_token]
    r4 := some (.groupElementC public_key)
    r5 := none
    r6 := none
    creationHeight := creation_height }

/-! ## Wallet box selection and transaction assembly (external ergo-lib
collaborators, modelled per spec sections 4.5 and 6) -/

/-- `BoxValue::SAFE_USER_MIN` (0.001 ERG in nanoERGs), the fee used by the
publish action. -/
def SAFE_USER_MIN : Nat := 1000000

/-- `crate::oracle_config::BASE_FEE`, the fee target of the transfer action
(defined outside the given sources; a fixed minimum-fee constant). -/
def BASE_FEE : Nat := 1100000

/-- `BoxSelection` of ergo-lib's `SimpleBoxSelector`: the chosen boxes and
the change amounts left over. -/
structure BoxSelection where
  boxes : List ErgoBox
  changeBoxes : List Nat
  deriving DecidableEq, Repr

/-- `BoxSelectorError`. -/
inductive BoxSelectorError where
  | notEnoughCoins
  deriving DecidableEq, Repr

/-- Accumulate boxes in order until their total value reaches the target
(spec 4.5: deterministic selection, accumulate until target reached). -/
def selectBoxesLoop : List ErgoBox → Nat → Nat → List ErgoBox →
    Except BoxSelectorError (List ErgoBox × Nat)
  | [], target, acc, chosen =>
      if target ≤ acc then .ok (chosen.reverse, acc)
      else .error .notEnoughCoins
  | b :: rest, target, acc, chosen =>
      if target ≤ acc then .ok (chosen.reverse, acc)
      else selectBoxesLoop rest target (acc + b.value) (b :: chosen)

/-- `SimpleBoxSelector::select` with an empty target-token list: cover the
target amount from the wallet boxes, the surplus becoming change. -/
def simpleBoxSelect (unspent : List ErgoBox) (target : Nat) :
    Except BoxSelectorError BoxSelection :=
  match selectBoxesLoop unspent target 0 [] with
  | .error e => .error e
  | .ok (boxes, total) =>
      .ok { boxes := boxes,
            changeBoxes := if total - target = 0 then [] else [total - target] }

/-- The spending script of an address (P2PK addresses produce the
public-key-guarded script). -/
def addressErgoTree : Address → ErgoTree
  | .p2pk pk => ⟨some [.groupElementC pk]⟩
  | .p2s tree => tree
  | .p2sh h => ⟨some [.tokenIdC h]⟩

/-- The miner-fee contract script (an external, fixed artifact). -/
def minerFeeErgoTree : ErgoTree := ⟨some []⟩

/-- A change output candidate produced by the transaction builder. -/
def mkChangeCandidate (value : Nat) (change_address : Address)
    (creation_height : Nat) : ErgoBoxCandidate :=
  { value := value
    ergoTree := addressErgoTree change_address
    tokens := none
    r4 := none, r5 := none, r6 := none
    creationHeight := creation_height }

/-- The fee output candidate produced by the transaction builder. -/
def mkFeeCandidate (fee : Nat) (creation_height : Nat) : ErgoBoxCandidate :=
  { value := fee
    ergoTree := minerFeeErgoTree
    tokens := none
    r4 := none, r5 := none, r6 := none
    creationHeight := creation_height }

/-- ergo-lib `TxBuilder` with one registered context extension: the inputs
keep their given order, the extension is attached to the input whose box id
it was registered for, and the outputs are the user candidates followed by
the change outputs and the miner-fee output. -/
def buildTx (input_boxes : List ErgoBox) (candidates : List ErgoBoxCandidate)
    (height : Nat) (fee : Nat) (change_address : Address)
    (change_values : List Nat) (ctxBoxId : Nat) (ctx : ContextExtension) :
    UnsignedTransaction :=
  { inputs := input_boxes.map (fun b =>
      { boxId := b.boxId
        extension := if b.boxId = ctxBoxId then ctx else [] })
    outputCandidates :=
      candidates
        ++ change_values.map (fun v => mkChangeCandidate v change_address height)
        ++ [mkFeeCandidate fee height] }

/-! ## Publish-datapoint action (commands/publish_data_point.rs) -/

/-- `PublishDatapointActionError` (commands/publish_data_point.rs lines
29-43).  Note: there is no variant for a missing local datapoint box; a
source failure arrives as the propagated `StageError`. -/
inductive PublishDatapointActionError where
  | stageError (e : StageError)
  | noRewardToken
  | txBuilder (code : Nat)
  | ergoBoxCandidateBuilder (code : Nat)
  | node (code : Nat)
  | boxSelector (e : BoxSelectorError)
  deriving DecidableEq, Repr

/-- `PublishDataPointAction`: the built unsigned transaction. -/
structure PublishDataPointAction where
  tx : UnsignedTransaction
  deriving DecidableEq, Repr

/-- `build_publish_datapoint_action` (commands/publish_data_point.rs lines
45-102).  The two box sources are passed as their fetch results; the wallet
as its unspent-box list.  Output: R4 := oracle public key, R5 := pool epoch
counter + 1 (u32 arithmetic cast `as i32`), R6 := smoothed datapoint;
tokens [oracle token, reward token]; value/script from the oracle box,
creation height := `height`.  The oracle box is input 0 and carries the
context extension 0 ↦ 0. -/
def build_publish_datapoint_action
    (pool_box_source : Except StageError PoolBoxWrapper)
    (local_datapoint_box_source : Except StageError OracleBoxWrapper)
    (wallet : List ErgoBox) (height : Nat) (change_address : Address)
    (new_datapoint : Int) :
    Except PublishDatapointActionError PublishDataPointAction :=
  match pool_box_source with
  | .error e => .error (.stageError e)
  | .ok in_pool_box =>
    match local_datapoint_box_source with
    | .error e => .error (.stageError e)
    | .ok in_oracle_box =>
      if in_oracle_box.reward_token.amount = 0 then .error .noRewardToken
      else
        let new_epoch_counter : Int :=
          u32AsI32 ((in_pool_box.epoch_counter + 1) % 4294967296)
        let output_candidate : ErgoBoxCandidate :=
          { value := in_oracle_box.get_box.value
            ergoTree := in_oracle_box.get_box.ergoTree
            tokens := some [in_oracle_box.oracle_token,
                            in_oracle_box.reward_token]
            r4 := some (.groupElementC in_oracle_box.public_key)
            r5 := some (.intC new_epoch_counter)
            r6 := some (.longC (compute_new_datapoint new_datapoint
                                  in_oracle_box.rate))
            creationHeight := height }
        match simpleBoxSelect wallet SAFE_USER_MIN with
        | .error e => .error (.boxSelector e)
        | .ok selection =>
          let input_boxes := in_oracle_box.get_box :: selection.boxes
          .ok ⟨buildTx input_boxes [output_candidate] height SAFE_USER_MIN
                 change_address selection.changeBoxes
                 in_oracle_box.get_box.boxId [(0, .intC 0)]⟩

/-! ## Transfer-oracle-token action (cli_commands/transfer_oracle_token.rs) -/

/-- `TransferOracleTokenActionError` (the variants reachable from
`build_transfer_oracle_token_tx`). -/
inductive TransferOracleTokenActionError where
  | incorrectNumberOfRewardTokensInOracleBox (n : Nat)
  | incorrectDestinationAddress
  | stageError (e : StageError)
  | boxSelector (e : BoxSelectorError)
  | noLocalDatapointBox
  deriving DecidableEq, Repr

/-- `build_transfer_oracle_token_tx` (transfer_oracle_token.rs lines
104-175): requires the local oracle box to exist, strictly more than one
reward token, and a P2PK destination; builds a Posted- or Collected-shaped
output at the destination key, with the oracle box as input 0 carrying the
context extension 0 ↦ 0. -/
def build_transfer_oracle_token_tx
    (local_datapoint_box_source : Except StageError (Option OracleBoxWrapper))
    (wallet : List ErgoBox) (oracle_token_destination : Address)
    (height : Nat) (change_address : Address) :
    Except TransferOracleTokenActionError UnsignedTransaction :=
  match local_datapoint_box_source with
  | .error e => .error (.stageError e)
  | .ok none => .error .noLocalDatapointBox
  | .ok (some in_oracle_box) =>
    let num_reward_tokens := in_oracle_box.reward_token.amount
    if num_reward_tokens ≤ 1 then
      .error (.incorrectNumberOfRewardTokensInOracleBox num_reward_tokens)
    else
      match oracle_token_destination with
      | .p2pk p2pk_dest =>
        let oracle_box_candidate :=
          match in_oracle_box with
          | .posted posted_oracle_box =>
              make_oracle_box_candidate
                (OracleBoxWrapper.posted posted_oracle_box).contract
                p2pk_dest
                (OracleBoxWrapper.posted posted_oracle_box).rate
                (u32AsI32 (OracleBoxWrapper.posted posted_oracle_box).epoch_counter)
                (OracleBoxWrapper.posted posted_oracle_box).oracle_token
                (OracleBoxWrapper.posted posted_oracle_box).reward_token
                posted_oracle_box.value height
          | .collected b =>
              make_collected_oracle_box_candidate
                (OracleBoxWrapper.collected b).contract
                (OracleBoxWrapper.collected b).public_key
                (OracleBoxWrapper.collected b).oracle_token
                (OracleBoxWrapper.collected b).reward_token
                (OracleBoxWrapper.collected b).get_box.value height
        match simpleBoxSelect wallet BASE_FEE with
        | .error e => .error (.boxSelector e)
        | .ok selection =>
          let input_boxes := in_oracle_box.get_box :: selection.boxes
          .ok (buildTx input_boxes [oracle_box_candidate] height BASE_FEE
                 change_address selection.changeBoxes
                 in_oracle_box.get_box.boxId [(0, .intC 0)])
      | _ => .error .incorrectDestinationAddress

/-! ## Helper predicates and selectors used by the theorem statements -/

/-- Does an `Option`-wrapped (panic-tracking) validation result hold a
successfully built value? -/
def optExceptIsOk {ε α : Type} : Option (Except ε α) → Bool
  | some (.ok _) => true
  | _ => false

/-- Does an optional register constant decode as an i64? -/
def r4DecodesI64 : Option Constant → Bool
  | some c => !extractI64Fails c
  | none => false

/-- Does an optional register constant decode as an i32? -/
def r5DecodesI32 : Option Constant → Bool
  | some c => !extractI32Fails c
  | none => false

/-- The epoch counter of a successfully validated pool box. -/
def poolResultEpochCounter : Option (Except PoolBoxError PoolBoxWrapper) → Option Nat
  | some (.ok w) => some w.epoch_counter
  | _ => none

/-- The rate of a successfully validated pool box. -/
def poolResultRate : Option (Except PoolBoxError PoolBoxWrapper) → Option Int
  | some (.ok w) => some w.rate
  | _ => none

/-- Is an address a plain public-key (P2PK) address? -/
def Address.is_p2pk : Address → Bool
  | .p2pk _ => true
  | _ => false

/-- The declarative pool-contract condition of the specification: the
script's constants parse and embed the expected refresh-NFT and update-NFT
ids at the declared indices. -/
def poolContractSpecValid (t : ErgoTree) (p : PoolContractParameters) : Bool :=
  match t.constants with
  | some cs =>
    (listGet? cs p.refreshNftIndex == some (.tokenIdC p.refreshNftTokenId)) &&
    (listGet? cs p.updateNftIndex == some (.tokenIdC p.updateNftTokenId))
  | none => false

/-- The declarative pool-box shape of the specification: token slot 0
carries the expected pool-NFT id, token slot 1 the expected reward-token
id, R4 decodes as i64, R5 as i32, and the script's constants parse and
embed the expected refresh-NFT and update-NFT ids at the declared
indices. -/
def poolBoxSpecValid (b : ErgoBox) (inputs : PoolBoxWrapperInputs) : Bool :=
  (match b.tokens with
   | some ts =>
     (match listGet? ts 0 with
      | some t => t.tokenId == inputs.poolNftTokenId
      | none => false) &&
     (match listGet? ts 1 with
      | some t => t.tokenId == inputs.rewardTokenId
      | none => false)
   | none => false) &&
  r4DecodesI64 b.r4 &&
  r5DecodesI32 b.r5 &&
  poolContractSpecValid b.ergoTree inputs.contractInputs



theorem from_ergo_tree_isOk (t : ErgoTree) (p : PoolContractParameters) :
    optExceptIsOk (PoolContract.from_ergo_tree t p) = poolContractSpecValid t p := by
  obtain ⟨tc⟩ := t
  cases tc with
  | none => rfl
  | some cs =>
    simp only [PoolContract.from_ergo_tree, poolContractSpecValid]
    cases h0 : listGet? cs p.refreshNftIndex with
    | none => simp [optExceptIsOk]
    | some c0 =>
      cases c0 with
      | longC v => simp [optExceptIsOk, tryExtractTokenId]
      | intC v => simp [optExceptIsOk, tryExtractTokenId]
      | groupElementC pk => simp [optExceptIsOk, tryExtractTokenId]
      | tokenIdC id0 =>
        by_cases hid0 : id0 = p.refreshNftTokenId
        · subst hid0
          simp only [tryExtractTokenId, ne_eq, not_true_eq_false, ite_false,
            beq_self_eq_true, Bool.true_and]
          cases h1 : listGet? cs p.updateNftIndex with
          | none => simp [optExceptIsOk]
          | some c1 =>
            cases c1 with
            | longC v => simp [optExceptIsOk, tryExtractTokenId]
            | intC v => simp [optExceptIsOk, tryExtractTokenId]
            | groupElementC pk => simp [optExceptIsOk, tryExtractTokenId]
            | tokenIdC id1 =>
              by_cases hid1 : id1 = p.updateNftTokenId
              · subst hid1
                simp [optExceptIsOk, tryExtractTokenId]
              · simp [optExceptIsOk, tryExtractTokenId, hid1]
        · simp [optExceptIsOk, tryExtractTokenId, hid0]

theorem from_ergo_tree_ok_elim (t : ErgoTree) (p : PoolContractParameters)
    (c : PoolContract) (h : PoolContract.from_ergo_tree t p = some (.ok c)) :
    c = ⟨t, p.refreshNftIndex, p.updateNftIndex⟩ ∧
      poolContractSpecValid t p = true := by
  obtain ⟨tc⟩ := t
  cases tc with
  | none => cases h
  | some cs =>
    simp only [PoolContract.from_ergo_tree] at h
    simp only [poolContractSpecValid]
    cases h0 : listGet? cs p.refreshNftIndex with
    | none => rw [h0] at h; cases h
    | some c0 =>
      rw [h0] at h
      cases c0 with
      | longC v => simp [tryExtractTokenId] at h
      | intC v => simp [tryExtractTokenId] at h
      | groupElementC pk => simp [tryExtractTokenId] at h
      | tokenIdC id0 =>
        by_cases hid0 : id0 = p.refreshNftTokenId
        · subst hid0
          simp only [tryExtractTokenId, ne_eq, not_true_eq_false, ite_false] at h
          cases h1 : listGet? cs p.updateNftIndex with
          | none => rw [h1] at h; cases h
          | some c1 =>
            rw [h1] at h
            cases c1 with
            | longC v => simp [tryExtractTokenId] at h
            | intC v => simp [tryExtractTokenId] at h
            | groupElementC pk => simp [tryExtractTokenId] at h
            | tokenIdC id1 =>
              by_cases hid1 : id1 = p.updateNftTokenId
              · subst hid1
                simp only [tryExtractTokenId, ne_eq, not_true_eq_false,
                  ite_false, Option.some.injEq] at h
                refine ⟨?_, by simp⟩
                cases h with
                | refl => rfl
              · simp [tryExtractTokenId, hid1] at h
        · simp [tryExtractTokenId, hid0] at h

theorem from_ergo_tree_valid_ok (t : ErgoTree) (p : PoolContractParameters)
    (h : poolContractSpecValid t p = true) :
    PoolContract.from_ergo_tree t p =
      some (.ok ⟨t, p.refreshNftIndex, p.updateNftIndex⟩) := by
  obtain ⟨tc⟩ := t
  cases tc with
  | none => simp [poolContractSpecValid] at h
  | some cs =>
    simp only [poolContractSpecValid] at h
    have h0 := (Bool.and_eq_true _ _).mp h
    have hr : listGet? cs p.refreshNftIndex =
        some (.tokenIdC p.refreshNftTokenId) := by
      have := h0.1
      exact beq_iff_eq.mp this
    have hu : listGet? cs p.updateNftIndex =
        some (.tokenIdC p.updateNftTokenId) := by
      have := h0.2
      exact beq_iff_eq.mp this
    simp only [PoolContract.from_ergo_tree]
    rw [hr, hu]
    simp [tryExtractTokenId]

theorem pool_box_new_isOk (b : ErgoBox) (inputs : PoolBoxWrapperInputs) :
    optExceptIsOk (PoolBoxWrapper.new b inputs) = poolBoxSpecValid b inputs := by
  obtain ⟨bid, bv, bt, btk, br4, br5, br6, bh⟩ := b
  simp only [PoolBoxWrapper.new, poolBoxSpecValid]
  cases btk with
  | none => rfl
  | some ts =>
    cases h0 : listGet? ts 0 with
    | none => simp only [h0]; simp [optExceptIsOk]
    | some t0 =>
      simp only [h0]
      by_cases hp : t0.tokenId = inputs.poolNftTokenId
      · simp only [hp, ne_eq, not_true_eq_false, ite_false, beq_self_eq_true,
          Bool.true_and, if_false]
        cases br4 with
        | none => simp [optExceptIsOk, r4DecodesI64]
        | some c4 =>
          cases hc4 : extractI64Fails c4 with
          | true => simp [optExceptIsOk, r4DecodesI64, hc4]
          | false =>
            simp only [hc4, Bool.false_eq_true, if_false, ite_false,
              r4DecodesI64, Bool.not_false, Bool.true_and, Bool.and_true]
            cases br5 with
            | none => simp [optExceptIsOk, r5DecodesI32]
            | some c5 =>
              cases hc5 : extractI32Fails c5 with
              | true => simp [optExceptIsOk, r5DecodesI32, hc5]
              | false =>
                simp only [hc5, Bool.false_eq_true, if_false, ite_false,
                  r5DecodesI32, Bool.not_false, Bool.true_and, Bool.and_true]
                cases h1 : listGet? ts 1 with
                | none => simp only [h1]; simp [optExceptIsOk]
                | some t1 =>
                  simp only [h1]
                  by_cases hr : t1.tokenId = inputs.rewardTokenId
                  · simp only [hr, ne_eq, not_true_eq_false, ite_false,
                      beq_self_eq_true, Bool.true_and, if_false]
                    have hiff := from_ergo_tree_isOk bt inputs.contractInputs
                    cases hfe : PoolContract.from_ergo_tree bt
                        inputs.contractInputs with
                    | none =>
                      rw [hfe] at hiff
                      simp only [optExceptIsOk] at hiff
                      try simp only [hfe]
                      simp [optExceptIsOk, ← hiff]
                    | some r =>
                      rw [hfe] at hiff
                      cases r with
                      | error e =>
                        simp only [optExceptIsOk] at hiff
                        try simp only [hfe]
                        simp [optExceptIsOk, ← hiff]
                      | ok c =>
                        simp only [optExceptIsOk] at hiff
                        try simp only [hfe]
                        simp [optExceptIsOk, ← hiff]
                  · simp [optExceptIsOk, hr]
      · simp [optExceptIsOk, hp]

/-! ## Concrete fixtures used by witnesses and counterexamples -/

/-- Pool contract parameters: refresh NFT id 100 at constant index 0,
update NFT id 101 at constant index 1. -/
def params0 : PoolContractParameters := ⟨0, 1, 100, 101⟩

/-- A script whose constants carry the expected ids at the declared indices. -/
def tree0 : ErgoTree := ⟨some [.tokenIdC 100, .tokenIdC 101]⟩

/-- The contract bound from `tree0` and `params0`. -/
def poolContract0 : PoolContract := ⟨tree0, 0, 1⟩

/-- Expected inputs: pool NFT id 200, reward token id 201. -/
def poolInputs0 : PoolBoxWrapperInputs := ⟨params0, 200, 201⟩

/-- The pool NFT (amount 1). -/
def poolNft0 : Token := ⟨200, 1⟩

/-- A reward token holding. -/
def rewardTok0 : Token := ⟨201, 5⟩

/-- A fully valid pool box: rate 42 in R4, epoch 7 in R5. -/
def poolBox0 : ErgoBox :=
  ⟨1, 1000000000, tree0, some [poolNft0, rewardTok0],
   some (.longC 42), some (.intC 7), none, 10⟩

/-- `poolBox0` with the token list absent. -/
def poolBoxNoTok : ErgoBox :=
  ⟨1, 1000000000, tree0, none, some (.longC 42), some (.intC 7), none, 10⟩

/-- `poolBox0` with an empty token list. -/
def poolBoxEmptyTok : ErgoBox :=
  ⟨1, 1000000000, tree0, some [], some (.longC 42), some (.intC 7), none, 10⟩

/-- `poolBox0` with a wrong token id in slot 0. -/
def poolBoxWrongNft : ErgoBox :=
  ⟨1, 1000000000, tree0, some [⟨999, 1⟩, rewardTok0],
   some (.longC 42), some (.intC 7), none, 10⟩

/-- `poolBox0` with a mistyped R4 (an i32 instead of an i64). -/
def poolBoxBadR4 : ErgoBox :=
  ⟨1, 1000000000, tree0, some [poolNft0, rewardTok0],
   some (.intC 42), some (.intC 7), none, 10⟩

/-- `poolBox0` with a mistyped R5 (an i64 instead of an i32). -/
def poolBoxBadR5 : ErgoBox :=
  ⟨1, 1000000000, tree0, some [poolNft0, rewardTok0],
   some (.longC 42), some (.longC 7), none, 10⟩

/-- `poolBox0` with only the pool NFT in its token list. -/
def poolBoxOneTok : ErgoBox :=
  ⟨1, 1000000000, tree0, some [poolNft0],
   some (.longC 42), some (.intC 7), none, 10⟩

/-- `poolBox0` with a script embedding a wrong refresh-NFT id. -/
def poolBoxWrongTree : ErgoBox :=
  ⟨1, 1000000000, ⟨some [.tokenIdC 999, .tokenIdC 101]⟩,
   some [poolNft0, rewardTok0], some (.longC 42), some (.intC 7), none, 10⟩

/-! ## Claim theorems -/

/-- C1: `PoolBoxWrapper::new(b, P)` returns Ok exactly when b's token
slot 0 carries the expected pool-NFT id, slot 1 the expected reward-token
id, R4 decodes as i64, R5 as i32, and the script embeds the expected
refresh- and update-NFT ids at the declared constant indices; and each
single violated condition yields its specific error kind: NoTokens for an
absent or empty token list, UnknownPoolNftId for a wrong slot-0 id,
NoDataPoint for a missing or mistyped R4, NoEpochCounter for a missing or
mistyped R5, NoRewardToken for an absent slot 1, and the contract binder's
error surfaced unchanged (wrapped as PoolContractError) for
script-constant failures. -/
theorem c1_pool_box_validation :
    (∀ b inputs,
      optExceptIsOk (PoolBoxWrapper.new b inputs) = poolBoxSpecValid b inputs) ∧
    (∀ b inputs, b.tokens = none →
      PoolBoxWrapper.new b inputs = some (.error .noTokens)) ∧
    (∀ b inputs, b.tokens = some [] →
      PoolBoxWrapper.new b inputs = some (.error .noTokens)) ∧
    (∀ b inputs t ts, b.tokens = some (t :: ts) →
      t.tokenId ≠ inputs.poolNftTokenId →
      PoolBoxWrapper.new b inputs = some (.error .unknownPoolNftId)) ∧
    (∀ b inputs t ts, b.tokens = some (t :: ts) →
      t.tokenId = inputs.poolNftTokenId → r4DecodesI64 b.r4 = false →
      PoolBoxWrapper.new b inputs = some (.error .noDataPoint)) ∧
    (∀ b inputs t ts, b.tokens = some (t :: ts) →
      t.tokenId = inputs.poolNftTokenId → r4DecodesI64 b.r4 = true →
      r5DecodesI32 b.r5 = false →
      PoolBoxWrapper.new b inputs = some (.error .noEpochCounter)) ∧
    (∀ b inputs t, b.tokens = some [t] →
      t.tokenId = inputs.poolNftTokenId → r4DecodesI64 b.r4 = true →
      r5DecodesI32 b.r5 = true →
      PoolBoxWrapper.new b inputs = some (.error .noRewardToken)) ∧
    (∀ b inputs t u ts e, b.tokens = some (t :: u :: ts) →
      t.tokenId = inputs.poolNftTokenId → u.tokenId = inputs.rewardTokenId →
      r4DecodesI64 b.r4 = true → r5DecodesI32 b.r5 = true →
      PoolContract.from_ergo_tree b.ergoTree inputs.contractInputs =
        some (.error e) →
      PoolBoxWrapper.new b inputs = some (.error (.poolContractError e))) := by
  refine ⟨pool_box_new_isOk, ?_, ?_, ?_, ?_, ?_, ?_, ?_⟩
  · intro b inputs h
    obtain ⟨bid, bv, bt, btk, br4, br5, br6, bh⟩ := b
    cases h
    rfl
  · intro b inputs h
    obtain ⟨bid, bv, bt, btk, br4, br5, br6, bh⟩ := b
    cases h
    rfl
  · intro b inputs t ts h hne
    obtain ⟨bid, bv, bt, btk, br4, br5, br6, bh⟩ := b
    cases h
    simp [PoolBoxWrapper.new, listGet?, hne]
  · intro b inputs t ts h hid h4
    obtain ⟨bid, bv, bt, btk, br4, br5, br6, bh⟩ := b
    cases h
    cases br4 with
    | none => simp [PoolBoxWrapper.new, listGet?, hid]
    | some c4 =>
      simp only [r4DecodesI64, Bool.not_eq_false'] at h4
      simp [PoolBoxWrapper.new, listGet?, hid, h4]
  · intro b inputs t ts h hid h4 h5
    obtain ⟨bid, bv, bt, btk, br4, br5, br6, bh⟩ := b
    cases h
    cases br4 with
    | none => simp [r4DecodesI64] at h4
    | some c4 =>
      simp only [r4DecodesI64, Bool.not_eq_true'] at h4
      cases br5 with
      | none => simp [PoolBoxWrapper.new, listGet?, hid, h4]
      | some c5 =>
        simp only [r5DecodesI32, Bool.not_eq_false'] at h5
        simp [PoolBoxWrapper.new, listGet?, hid, h4, h5]
  · intro b inputs t h hid h4 h5
    obtain ⟨bid, bv, bt, btk, br4, br5, br6, bh⟩ := b
    cases h
    cases br4 with
    | none => simp [r4DecodesI64] at h4
    | some c4 =>
      simp only [r4DecodesI64, Bool.not_eq_true'] at h4
      cases br5 with
      | none => simp [r5DecodesI32] at h5
      | some c5 =>
        simp only [r5DecodesI32, Bool.not_eq_true'] at h5
        simp [PoolBoxWrapper.new, listGet?, hid, h4, h5]
  · intro b inputs t u ts e h hid huid h4 h5 hfe
    obtain ⟨bid, bv, bt, btk, br4, br5, br6, bh⟩ := b
    cases h
    cases br4 with
    | none => simp [r4DecodesI64] at h4
    | some c4 =>
      simp only [r4DecodesI64, Bool.not_eq_true'] at h4
      cases br5 with
      | none => simp [r5DecodesI32] at h5
      | some c5 =>
        simp only [r5DecodesI32, Bool.not_eq_true'] at h5
        simp [PoolBoxWrapper.new, listGet?, hid, huid, h4, h5, hfe]

/-- C1 witness: the characterization and every single-violation error case
evaluated at concrete boxes. -/
theorem c1_pool_box_validation_witness :
    optExceptIsOk (PoolBoxWrapper.new poolBox0 poolInputs0) =
      poolBoxSpecValid poolBox0 poolInputs0 ∧
    PoolBoxWrapper.new poolBoxNoTok poolInputs0 = some (.error .noTokens) ∧
    PoolBoxWrapper.new poolBoxEmptyTok poolInputs0 = some (.error .noTokens) ∧
    PoolBoxWrapper.new poolBoxWrongNft poolInputs0 =
      some (.error .unknownPoolNftId) ∧
    PoolBoxWrapper.new poolBoxBadR4 poolInputs0 =
      some (.error .noDataPoint) ∧
    PoolBoxWrapper.new poolBoxBadR5 poolInputs0 =
      some (.error .noEpochCounter) ∧
    PoolBoxWrapper.new poolBoxOneTok poolInputs0 =
      some (.error .noRewardToken) ∧
    PoolBoxWrapper.new poolBoxWrongTree poolInputs0 =
      some (.error (.poolContractError .unknownRefreshNftId)) :=
  ⟨c1_pool_box_validation.1 poolBox0 poolInputs0,
   c1_pool_box_validation.2.1 poolBoxNoTok poolInputs0 rfl,
   c1_pool_box_validation.2.2.1 poolBoxEmptyTok poolInputs0 rfl,
   c1_pool_box_validation.2.2.2.1 poolBoxWrongNft poolInputs0 ⟨999, 1⟩
     [rewardTok0] rfl (by decide),
   c1_pool_box_validation.2.2.2.2.1 poolBoxBadR4 poolInputs0 poolNft0
     [rewardTok0] rfl (by decide) (by decide),
   c1_pool_box_validation.2.2.2.2.2.1 poolBoxBadR5 poolInputs0 poolNft0
     [rewardTok0] rfl (by decide) (by decide) (by decide),
   c1_pool_box_validation.2.2.2.2.2.2.1 poolBoxOneTok poolInputs0 poolNft0
     rfl (by decide) (by decide) (by decide),
   c1_pool_box_validation.2.2.2.2.2.2.2 poolBoxWrongTree poolInputs0 poolNft0
     rewardTok0 [] .unknownRefreshNftId rfl (by decide) (by decide)
     (by decide) (by decide) (by decide)⟩

/-- C2: `compute_new_datapoint(n, p)` follows the priority-ordered f64
policy — n when n/p > 2.00, n when n/p < 0.50, truncate(p * 0.9951) when
n/p < 0.9951, truncate(p * 1.0049) when n/p > 1.0049, and n otherwise —
and in particular, with p = 100: n = 250 gives 250, n = 40 gives 40,
n = 99 gives 99, n = 101 gives 100 and n = 100 gives 100. -/
theorem c2_price_policy :
    (∀ n p : Int, p ≠ 0 →
      compute_new_datapoint n p =
        (let d := f64Div (i64ToF64 n) (i64ToF64 p)
         if f64Gt d lit2 then n
         else if f64Lt d litHalf then n
         else if f64Lt d lit9951 then f64AsI64 (f64Mul (i64ToF64 p) lit9951)
         else if f64Gt d lit10049 then f64AsI64 (f64Mul (i64ToF64 p) lit10049)
         else n)) ∧
    compute_new_datapoint 250 100 = 250 ∧
    compute_new_datapoint 40 100 = 40 ∧
    compute_new_datapoint 99 100 = 99 ∧
    compute_new_datapoint 101 100 = 100 ∧
    compute_new_datapoint 100 100 = 100 := by
  refine ⟨fun n p _ => rfl, ?_, ?_, ?_, ?_, ?_⟩ <;> decide

/-- C2 witness: the policy equation applied at n = 250, p = 100. -/
theorem c2_price_policy_witness :
    compute_new_datapoint 250 100 =
      (let d := f64Div (i64ToF64 250) (i64ToF64 100)
       if f64Gt d lit2 then 250
       else if f64Lt d litHalf then 250
       else if f64Lt d lit9951 then f64AsI64 (f64Mul (i64ToF64 100) lit9951)
       else if f64Gt d lit10049 then f64AsI64 (f64Mul (i64ToF64 100) lit10049)
       else 250) :=
  c2_price_policy.1 250 100 (by decide)

/-- A script on which `get_constants()` fails (an unparseable tree). -/
def treeUnparseable : ErgoTree := ⟨none⟩

/-- C5: evidence for the code bug in `PoolContract::from_ergo_tree`.  The
leftover `dbg!(ergo_tree.get_constants().unwrap())` panics (modelled as
`none`) on a script whose constants cannot be parsed, although the very
next line maps that same failure to `NoRefreshNftId`; for parseable
scripts the per-slot error classification claimed by the specification
holds: NoRefreshNftId/NoUpdateNftId for a missing constant, TryExtractFrom
for a wrongly typed constant, UnknownRefreshNftId/UnknownUpdateNftId for a
wrong id, and Ok exactly when both constants are the expected token ids. -/
theorem c5_from_ergo_tree_panic :
    PoolContract.from_ergo_tree treeUnparseable params0 = none ∧
    PoolContract.from_ergo_tree ⟨some []⟩ params0 =
      some (.error .noRefreshNftId) ∧
    PoolContract.from_ergo_tree ⟨some [.intC 5, .tokenIdC 101]⟩ params0 =
      some (.error (.tryExtractFrom ⟨.intC 5⟩)) ∧
    PoolContract.from_ergo_tree ⟨some [.tokenIdC 999, .tokenIdC 101]⟩ params0 =
      some (.error .unknownRefreshNftId) ∧
    PoolContract.from_ergo_tree ⟨some [.tokenIdC 100]⟩ params0 =
      some (.error .noUpdateNftId) ∧
    PoolContract.from_ergo_tree ⟨some [.tokenIdC 100, .longC 7]⟩ params0 =
      some (.error (.tryExtractFrom ⟨.longC 7⟩)) ∧
    PoolContract.from_ergo_tree ⟨some [.tokenIdC 100, .tokenIdC 999]⟩ params0 =
      some (.error .unknownUpdateNftId) ∧
    PoolContract.from_ergo_tree tree0 params0 = some (.ok poolContract0) := by
  decide

/-! ## Oracle-side fixtures and result selectors -/

instance : Inhabited UnsignedTransaction := ⟨⟨[], []⟩⟩

instance : Inhabited PublishDataPointAction := ⟨⟨⟨[], []⟩⟩⟩

/-- The oracle box's own script in the fixtures. -/
def oracleTree0 : ErgoTree := ⟨some [.groupElementC 9]⟩

/-- The oracle identity token (amount 1). -/
def oracleTok0 : Token := ⟨300, 1⟩

/-- The oracle box's reward-token holding (amount 5). -/
def oracleRewardTok : Token := ⟨301, 5⟩

/-- A Posted oracle box: public key 9 in R4, epoch 3 in R5, rate 100 in R6. -/
def oracleBox0 : ErgoBox :=
  ⟨2, 500000000, oracleTree0, some [oracleTok0, oracleRewardTok],
   some (.groupElementC 9), some (.intC 3), some (.longC 100), 10⟩

/-- The Posted wrapper over `oracleBox0`. -/
def oracleWrapper0 : OracleBoxWrapper := .posted oracleBox0

/-- `oracleBox0` with a zero reward-token amount. -/
def oracleBoxZeroReward : ErgoBox :=
  ⟨2, 500000000, oracleTree0, some [oracleTok0, ⟨301, 0⟩],
   some (.groupElementC 9), some (.intC 3), some (.longC 100), 10⟩

/-- The Posted wrapper over `oracleBoxZeroReward`. -/
def oracleWrapperZeroReward : OracleBoxWrapper := .posted oracleBoxZeroReward

/-- `oracleBox0` with exactly one reward token. -/
def oracleBoxOneReward : ErgoBox :=
  ⟨2, 500000000, oracleTree0, some [oracleTok0, ⟨301, 1⟩],
   some (.groupElementC 9), some (.intC 3), some (.longC 100), 10⟩

/-- The Posted wrapper over `oracleBoxOneReward`. -/
def oracleWrapperOneReward : OracleBoxWrapper := .posted oracleBoxOneReward

/-- A wallet box worth 5,000,000 nanoERG. -/
def walletBox0 : ErgoBox := ⟨3, 5000000, ⟨some []⟩, none, none, none, none, 10⟩

/-- The validated wrapper over `poolBox0`. -/
def poolWrapper0 : PoolBoxWrapper := ⟨poolBox0, poolContract0⟩

/-- An arbitrary stage error of the box-source collaborator. -/
def stage0 : StageError := ⟨0⟩

/-- The action value of a successful publish run (default on failure). -/
def publishActionOf :
    Except PublishDatapointActionError PublishDataPointAction →
      PublishDataPointAction
  | .ok a => a
  | .error _ => default

/-- The transaction of a successful transfer run (default on failure). -/
def transferTxOf :
    Except TransferOracleTokenActionError UnsignedTransaction →
      UnsignedTransaction
  | .ok tx => tx
  | .error _ => default

/-- C4: `build_transfer_oracle_token_tx` rejects an oracle box whose
reward-token amount is not strictly greater than 1 with
IncorrectNumberOfRewardTokensInOracleBox (carrying that amount), and — with
at least 2 reward tokens — rejects a non-P2PK destination address with
IncorrectDestinationAddress; in both cases no transaction is produced. -/
theorem c4_transfer_guards :
    (∀ ob wallet dest height addr,
      (OracleBoxWrapper.reward_token ob).amount ≤ 1 →
      build_transfer_oracle_token_tx (.ok (some ob)) wallet dest height addr =
        .error (.incorrectNumberOfRewardTokensInOracleBox
          (OracleBoxWrapper.reward_token ob).amount)) ∧
    (∀ ob wallet dest height addr,
      2 ≤ (OracleBoxWrapper.reward_token ob).amount →
      dest.is_p2pk = false →
      build_transfer_oracle_token_tx (.ok (some ob)) wallet dest height addr =
        .error .incorrectDestinationAddress) := by
  constructor
  · intro ob wallet dest height addr h
    simp [build_transfer_oracle_token_tx, h]
  · intro ob wallet dest height addr h hd
    have hgt : ¬ (OracleBoxWrapper.reward_token ob).amount ≤ 1 := by omega
    cases dest with
    | p2pk pk => simp [Address.is_p2pk] at hd
    | p2s tree => simp [build_transfer_oracle_token_tx, hgt]
    | p2sh hash => simp [build_transfer_oracle_token_tx, hgt]

/-- C4 witness: one reward token trips the count guard; two reward tokens
with a script destination trip the destination guard. -/
theorem c4_transfer_guards_witness :
    build_transfer_oracle_token_tx (.ok (some oracleWrapperOneReward))
        [walletBox0] (.p2pk 7) 10 (.p2pk 8) =
      .error (.incorrectNumberOfRewardTokensInOracleBox
        (OracleBoxWrapper.reward_token oracleWrapperOneReward).amount) ∧
    build_transfer_oracle_token_tx (.ok (some oracleWrapper0))
        [walletBox0] (.p2s ⟨some []⟩) 10 (.p2pk 8) =
      .error .incorrectDestinationAddress :=
  ⟨c4_transfer_guards.1 oracleWrapperOneReward [walletBox0] (.p2pk 7) 10
     (.p2pk 8) (by decide),
   c4_transfer_guards.2 oracleWrapper0 [walletBox0] (.p2s ⟨some []⟩) 10
     (.p2pk 8) (by decide) (by decide)⟩

/-- C8: with the pool and oracle boxes fetched, an oracle box carrying a
zero reward-token amount makes `build_publish_datapoint_action` fail with
NoRewardToken; no transaction is produced. -/
theorem c8_publish_no_reward_token (pool : PoolBoxWrapper)
    (ob : OracleBoxWrapper) (wallet : List ErgoBox) (height : Nat)
    (addr : Address) (dp : Int)
    (hr : (OracleBoxWrapper.reward_token ob).amount = 0) :
    build_publish_datapoint_action (.ok pool) (.ok ob) wallet height addr dp =
      .error .noRewardToken := by
  simp [build_publish_datapoint_action, hr]

/-- C8 witness: the zero-reward oracle box evaluated concretely. -/
theorem c8_publish_no_reward_token_witness :
    build_publish_datapoint_action (.ok poolWrapper0)
        (.ok oracleWrapperZeroReward) [walletBox0] 10 (.p2pk 7) 100 =
      .error .noRewardToken :=
  c8_publish_no_reward_token poolWrapper0 oracleWrapperZeroReward [walletBox0]
    10 (.p2pk 7) 100 (by decide)

/-- C9 counterexample: when the local oracle box source fails (the box is
absent), the publish action fails with the propagated StageError — not with
a NoLocalDatapointBox kind, which does not exist in
`PublishDatapointActionError` (it exists only in the transfer action's
error type, as the second conjunct shows). -/
theorem c9_missing_local_box_cex :
    build_publish_datapoint_action (.ok poolWrapper0) (.error stage0)
        [walletBox0] 10 (.p2pk 7) 100 = .error (.stageError stage0) ∧
    build_transfer_oracle_token_tx (.ok none) [walletBox0] (.p2pk 7) 10
        (.p2pk 8) = .error .noLocalDatapointBox := by
  constructor
  · rfl
  · rfl

/-- C9 (amended): when the local oracle datapoint box source fails, the
publish action fails with the propagated stage error
(PublishDatapointActionError::StageError); the publish action's error type
has no distinct NoLocalDatapointBox kind. -/
theorem c9_missing_local_box_amended (pool : PoolBoxWrapper) (s : StageError)
    (wallet : List ErgoBox) (height : Nat) (addr : Address) (dp : Int) :
    build_publish_datapoint_action (.ok pool) (.error s) wallet height addr dp =
      .error (.stageError s) := rfl

/-- The first output candidate of a publish result (default on failure). -/
def publishFirstOutput
    (r : Except PublishDatapointActionError PublishDataPointAction) :
    ErgoBoxCandidate :=
  (publishActionOf r).tx.outputCandidates.headD default

theorem publish_ok_shape (pool : PoolBoxWrapper) (ob : OracleBoxWrapper)
    (wallet : List ErgoBox) (height : Nat) (addr : Address) (dp : Int)
    (sel : BoxSelection)
    (hr : (OracleBoxWrapper.reward_token ob).amount ≠ 0)
    (hsel : simpleBoxSelect wallet SAFE_USER_MIN = .ok sel) :
    build_publish_datapoint_action (.ok pool) (.ok ob) wallet height addr dp =
      .ok ⟨buildTx (ob.get_box :: sel.boxes)
             [{ value := ob.get_box.value
                ergoTree := ob.get_box.ergoTree
                tokens := some [ob.oracle_token, ob.reward_token]
                r4 := some (.groupElementC ob.public_key)
                r5 := some (.intC (u32AsI32
                         ((pool.epoch_counter + 1) % 4294967296)))
                r6 := some (.longC (compute_new_datapoint dp ob.rate))
                creationHeight := height }]
             height SAFE_USER_MIN addr sel.changeBoxes ob.get_box.boxId
             [(0, .intC 0)]⟩ := by
  simp only [build_publish_datapoint_action]
  rw [if_neg hr]
  rw [hsel]

/-- `poolBox0` with R5 holding the i32 minimum (-2^31): a valid pool box
whose epoch counter, exposed as unsigned, is 2^31. -/
def poolBoxIntMin : ErgoBox :=
  ⟨1, 1000000000, tree0, some [poolNft0, rewardTok0],
   some (.longC 42), some (.intC (-2147483648)), none, 10⟩

/-- The validated wrapper over `poolBoxIntMin`. -/
def poolWrapperIntMin : PoolBoxWrapper := ⟨poolBoxIntMin, poolContract0⟩

/-- A successful publish run against the pool box with epoch 2^31. -/
def pubRunIntMin : Except PublishDatapointActionError PublishDataPointAction :=
  build_publish_datapoint_action (.ok poolWrapperIntMin) (.ok oracleWrapper0)
    [walletBox0] 10 (.p2pk 7) 100

/-- C6 counterexample: with the pool epoch counter 2^31 (R5 = i32 minimum),
the successful publish run writes R5 = -2147483647 — the epoch counter
plus 1 reduced to a signed 32-bit value — which differs from the epoch
counter plus 1 (2147483649). -/
theorem c6_publish_registers_cex :
    (publishFirstOutput pubRunIntMin).r5 = some (.intC (-2147483647)) ∧
    (poolWrapperIntMin.epoch_counter : Int) + 1 = 2147483649 ∧
    ((-2147483647 : Int) ≠ 2147483649) := by decide

/-- C6 (amended): every successful publish run's single output candidate
carries R4 = the oracle box's public key, R5 = the pool epoch counter plus
1 reduced to a signed 32-bit two's-complement value (equal to the epoch
counter plus 1 whenever that sum is below 2^31), R6 =
compute_new_datapoint(new datapoint, oracle rate), and exactly the oracle
box's oracle token followed by its reward token. -/
theorem c6_publish_registers_amended (pool : PoolBoxWrapper)
    (ob : OracleBoxWrapper) (wallet : List ErgoBox) (height : Nat)
    (addr : Address) (dp : Int) (sel : BoxSelection)
    (hr : (OracleBoxWrapper.reward_token ob).amount ≠ 0)
    (hsel : simpleBoxSelect wallet SAFE_USER_MIN = .ok sel) :
    (publishFirstOutput (build_publish_datapoint_action (.ok pool) (.ok ob)
        wallet height addr dp)).r4 =
      some (.groupElementC ob.public_key) ∧
    (publishFirstOutput (build_publish_datapoint_action (.ok pool) (.ok ob)
        wallet height addr dp)).r5 =
      some (.intC (u32AsI32 ((pool.epoch_counter + 1) % 4294967296))) ∧
    (pool.epoch_counter + 1 < 2147483648 →
      (publishFirstOutput (build_publish_datapoint_action (.ok pool) (.ok ob)
          wallet height addr dp)).r5 =
        some (.intC ((pool.epoch_counter : Int) + 1))) ∧
    (publishFirstOutput (build_publish_datapoint_action (.ok pool) (.ok ob)
        wallet height addr dp)).r6 =
      some (.longC (compute_new_datapoint dp ob.rate)) ∧
    (publishFirstOutput (build_publish_datapoint_action (.ok pool) (.ok ob)
        wallet height addr dp)).tokens =
      some [ob.oracle_token, ob.reward_token] := by
  rw [publish_ok_shape pool ob wallet height addr dp sel hr hsel]
  simp only [publishFirstOutput, publishActionOf, buildTx,
    List.singleton_append, List.headD_cons]
  refine ⟨rfl, rfl, ?_, rfl, rfl⟩
  intro hsmall
  have hm : (pool.epoch_counter + 1) % 4294967296 = pool.epoch_counter + 1 :=
    Nat.mod_eq_of_lt (by omega)
  rw [hm]
  simp only [u32AsI32]
  rw [Nat.mod_eq_of_lt (by omega)]
  rw [if_pos hsmall]
  norm_cast

/-- The fixture wallet selection: `walletBox0` covers the fee with
4,000,000 change. -/
def sel0 : BoxSelection := ⟨[walletBox0], [4000000]⟩

/-- The successful publish run over the standard fixtures. -/
def pubRun0 : Except PublishDatapointActionError PublishDataPointAction :=
  build_publish_datapoint_action (.ok poolWrapper0) (.ok oracleWrapper0)
    [walletBox0] 10 (.p2pk 7) 100

/-- C6 witness: the amended register/token claims at the concrete run. -/
theorem c6_publish_registers_witness :
    (publishFirstOutput pubRun0).r4 =
      some (.groupElementC oracleWrapper0.public_key) ∧
    (publishFirstOutput pubRun0).r5 =
      some (.intC (u32AsI32
        ((poolWrapper0.epoch_counter + 1) % 4294967296))) ∧
    (poolWrapper0.epoch_counter + 1 < 2147483648 →
      (publishFirstOutput pubRun0).r5 =
        some (.intC ((poolWrapper0.epoch_counter : Int) + 1))) ∧
    (publishFirstOutput pubRun0).r6 =
      some (.longC (compute_new_datapoint 100 oracleWrapper0.rate)) ∧
    (publishFirstOutput pubRun0).tokens =
      some [oracleWrapper0.oracle_token, oracleWrapper0.reward_token] :=
  c6_publish_registers_amended poolWrapper0 oracleWrapper0 [walletBox0] 10
    (.p2pk 7) 100 sel0 (by decide) (by decide)

/-- C7: for every successful run of the publish and transfer builders, the
oracle box is the first input of the unsigned transaction and the context
extension attached to that input maps key 0 to the integer 0. -/
theorem c7_oracle_input_context :
    (∀ pool ob wallet height addr dp a,
      build_publish_datapoint_action (.ok pool) (.ok ob) wallet height addr
          dp = .ok a →
      (a.tx.inputs.headD default).boxId =
        (OracleBoxWrapper.get_box ob).boxId ∧
      List.lookup 0 (a.tx.inputs.headD default).extension =
        some (.intC 0)) ∧
    (∀ ob wallet dest height addr tx,
      build_transfer_oracle_token_tx (.ok (some ob)) wallet dest height
          addr = .ok tx →
      (tx.inputs.headD default).boxId =
        (OracleBoxWrapper.get_box ob).boxId ∧
      List.lookup 0 (tx.inputs.headD default).extension =
        some (.intC 0)) := by
  constructor
  · intro pool ob wallet height addr dp a h
    by_cases hr : (OracleBoxWrapper.reward_token ob).amount = 0
    · simp [build_publish_datapoint_action, hr] at h
    · cases hsel : simpleBoxSelect wallet SAFE_USER_MIN with
      | error e => simp [build_publish_datapoint_action, hr, hsel] at h
      | ok sel =>
        rw [publish_ok_shape pool ob wallet height addr dp sel hr hsel] at h
        injection h with h
        subst h
        constructor
        · simp [buildTx, List.headD]
        · simp [buildTx, List.headD, List.lookup]
  · intro ob wallet dest height addr tx h
    simp only [build_transfer_oracle_token_tx] at h
    by_cases hle : (OracleBoxWrapper.reward_token ob).amount ≤ 1
    · rw [if_pos hle] at h
      cases h
    · rw [if_neg hle] at h
      cases dest with
      | p2pk pk =>
        cases hsel : simpleBoxSelect wallet BASE_FEE with
        | error e => rw [hsel] at h; cases h
        | ok sel =>
          rw [hsel] at h
          injection h with h
          subst h
          constructor
          · simp [buildTx, List.headD]
          · simp [buildTx, List.headD, List.lookup]
      | p2s t => cases h
      | p2sh hsh => cases h

set_option maxRecDepth 8000

/-- The successful transfer run over the standard fixtures. -/
def transferRun0 : Except TransferOracleTokenActionError UnsignedTransaction :=
  build_transfer_oracle_token_tx (.ok (some oracleWrapper0)) [walletBox0]
    (.p2pk 7) 10 (.p2pk 8)

/-- C7 witness: the first-input and context-extension claims at the two
concrete successful runs. -/
theorem c7_oracle_input_context_witness :
    (((publishActionOf pubRun0).tx.inputs.headD default).boxId =
        (OracleBoxWrapper.get_box oracleWrapper0).boxId ∧
      List.lookup 0 ((publishActionOf pubRun0).tx.inputs.headD
          default).extension = some (.intC 0)) ∧
    (((transferTxOf transferRun0).inputs.headD default).boxId =
        (OracleBoxWrapper.get_box oracleWrapper0).boxId ∧
      List.lookup 0 ((transferTxOf transferRun0).inputs.headD
          default).extension = some (.intC 0)) :=
  ⟨c7_oracle_input_context.1 poolWrapper0 oracleWrapper0 [walletBox0] 10
     (.p2pk 7) 100 (publishActionOf pubRun0) (by decide),
   c7_oracle_input_context.2 oracleWrapper0 [walletBox0] (.p2pk 7) 10
     (.p2pk 8) (transferTxOf transferRun0) (by decide)⟩

/-- C10: every successful publish run's first output candidate keeps the
oracle box's monetary value and script and is created at the supplied
height, and the remaining output candidates are exactly the change outputs
and the miner-fee output added by transaction assembly. -/
theorem c10_publish_frame (pool : PoolBoxWrapper) (ob : OracleBoxWrapper)
    (wallet : List ErgoBox) (height : Nat) (addr : Address) (dp : Int)
    (sel : BoxSelection) (a : PublishDataPointAction)
    (hr : (OracleBoxWrapper.reward_token ob).amount ≠ 0)
    (hsel : simpleBoxSelect wallet SAFE_USER_MIN = .ok sel)
    (h : build_publish_datapoint_action (.ok pool) (.ok ob) wallet height
        addr dp = .ok a) :
    (a.tx.outputCandidates.headD default).value =
      (OracleBoxWrapper.get_box ob).value ∧
    (a.tx.outputCandidates.headD default).ergoTree =
      (OracleBoxWrapper.get_box ob).ergoTree ∧
    (a.tx.outputCandidates.headD default).creationHeight = height ∧
    a.tx.outputCandidates.drop 1 =
      sel.changeBoxes.map (fun v => mkChangeCandidate v addr height) ++
        [mkFeeCandidate SAFE_USER_MIN height] := by
  rw [publish_ok_shape pool ob wallet height addr dp sel hr hsel] at h
  injection h with h
  subst h
  refine ⟨?_, ?_, ?_, ?_⟩ <;> simp [buildTx, List.headD]

/-- C10 witness: the frame claims at the concrete successful run. -/
theorem c10_publish_frame_witness :
    ((publishActionOf pubRun0).tx.outputCandidates.headD default).value =
      (OracleBoxWrapper.get_box oracleWrapper0).value ∧
    ((publishActionOf pubRun0).tx.outputCandidates.headD default).ergoTree =
      (OracleBoxWrapper.get_box oracleWrapper0).ergoTree ∧
    ((publishActionOf pubRun0).tx.outputCandidates.headD
        default).creationHeight = 10 ∧
    (publishActionOf pubRun0).tx.outputCandidates.drop 1 =
      sel0.changeBoxes.map (fun v => mkChangeCandidate v (.p2pk 7) 10) ++
        [mkFeeCandidate SAFE_USER_MIN 10] :=
  c10_publish_frame poolWrapper0 oracleWrapper0 [walletBox0] 10 (.p2pk 7)
    100 sel0 (publishActionOf pubRun0) (by decide) (by decide) (by decide)

/-- The pool-NFT token of a successfully validated pool box. -/
def poolResultNftToken :
    Option (Except PoolBoxError PoolBoxWrapper) → Option Token
  | some (.ok w) => some w.pool_nft_token
  | _ => none

/-- The reward token of a successfully validated pool box. -/
def poolResultRewardToken :
    Option (Except PoolBoxError PoolBoxWrapper) → Option Token
  | some (.ok w) => some w.reward_token
  | _ => none

/-- A pool-box candidate built with a negative epoch counter (-1). -/
def poolCandNegEpoch : ErgoBoxCandidate :=
  make_pool_box_candidate poolContract0 42 (-1) poolNft0 rewardTok0
    1000000000 10

/-- C3 counterexample: the candidate built with epoch counter -1 validates
successfully, but the wrapper's epoch counter is 4294967295 (the i32 value
-1 exposed as u32), not the input epoch counter -1. -/
theorem c3_pool_box_roundtrip_cex :
    poolResultEpochCounter
        (PoolBoxWrapper.new (poolCandNegEpoch.toBox 5) poolInputs0) =
      some 4294967295 ∧
    ¬((4294967295 : Int) = (-1 : Int)) := by decide

/-- C3 (amended): a candidate built by `make_pool_box_candidate` from a
bound pool contract, tokens whose ids equal the expected ids, any box
value and creation height, passes `PoolBoxWrapper::new` with the same
expected inputs, and the wrapper reproduces the datapoint, the two tokens
in slots 0 and 1, and the epoch counter reinterpreted as an unsigned
32-bit integer — equal to the input epoch counter whenever that input is
nonnegative (below 2^31). -/
theorem c3_pool_box_roundtrip_amended (inputs : PoolBoxWrapperInputs)
    (contract : PoolContract) (datapoint epoch : Int) (pt rt : Token)
    (value cheight bid : Nat)
    (hc : PoolContract.from_ergo_tree contract.ergoTree
        inputs.contractInputs = some (.ok contract))
    (hp : pt.tokenId = inputs.poolNftTokenId)
    (hr : rt.tokenId = inputs.rewardTokenId) :
    optExceptIsOk (PoolBoxWrapper.new
      ((make_pool_box_candidate contract datapoint epoch pt rt value
        cheight).toBox bid) inputs) = true ∧
    poolResultRate (PoolBoxWrapper.new
      ((make_pool_box_candidate contract datapoint epoch pt rt value
        cheight).toBox bid) inputs) = some datapoint ∧
    poolResultEpochCounter (PoolBoxWrapper.new
      ((make_pool_box_candidate contract datapoint epoch pt rt value
        cheight).toBox bid) inputs) = some (i32AsU32 epoch) ∧
    poolResultNftToken (PoolBoxWrapper.new
      ((make_pool_box_candidate contract datapoint epoch pt rt value
        cheight).toBox bid) inputs) = some pt ∧
    poolResultRewardToken (PoolBoxWrapper.new
      ((make_pool_box_candidate contract datapoint epoch pt rt value
        cheight).toBox bid) inputs) = some rt ∧
    (0 ≤ epoch → epoch < 2147483648 → ((i32AsU32 epoch : Nat) : Int) = epoch) := by
  have hnew : PoolBoxWrapper.new
      ((make_pool_box_candidate contract datapoint epoch pt rt value
        cheight).toBox bid) inputs =
      some (.ok ⟨(make_pool_box_candidate contract datapoint epoch pt rt
        value cheight).toBox bid, contract⟩) := by
    simp only [make_pool_box_candidate, ErgoBoxCandidate.toBox,
      PoolContract.ergo_tree, PoolBoxWrapper.new, listGet?]
    simp only [hp, hr, ne_eq, not_true_eq_false, ite_false, if_false]
    simp only [extractI64Fails, extractI32Fails, Bool.false_eq_true,
      if_false, ite_false]
    rw [hc]
  refine ⟨?_, ?_, ?_, ?_, ?_, ?_⟩
  · rw [hnew]; rfl
  · rw [hnew]
    simp [poolResultRate, PoolBoxWrapper.rate, make_pool_box_candidate,
      ErgoBoxCandidate.toBox]
  · rw [hnew]
    simp [poolResultEpochCounter, PoolBoxWrapper.epoch_counter,
      make_pool_box_candidate, ErgoBoxCandidate.toBox]
  · rw [hnew]
    simp [poolResultNftToken, PoolBoxWrapper.pool_nft_token,
      make_pool_box_candidate, ErgoBoxCandidate.toBox, listGet?]
  · rw [hnew]
    simp [poolResultRewardToken, PoolBoxWrapper.reward_token,
      make_pool_box_candidate, ErgoBoxCandidate.toBox, listGet?]
  · intro h1 h2
    simp only [i32AsU32]
    have hmod : epoch.emod 4294967296 = epoch := by
      have hmm : epoch % 4294967296 = epoch := Int.emod_eq_of_lt h1 (by omega)
      exact hmm
    rw [hmod]
    exact Int.toNat_of_nonneg h1

/-- C3 witness: the amended round-trip at concrete field values. -/
theorem c3_pool_box_roundtrip_witness :
    optExceptIsOk (PoolBoxWrapper.new
      ((make_pool_box_candidate poolContract0 42 7 poolNft0 rewardTok0
        1000000000 10).toBox 5) poolInputs0) = true ∧
    poolResultRate (PoolBoxWrapper.new
      ((make_pool_box_candidate poolContract0 42 7 poolNft0 rewardTok0
        1000000000 10).toBox 5) poolInputs0) = some 42 ∧
    poolResultEpochCounter (PoolBoxWrapper.new
      ((make_pool_box_candidate poolContract0 42 7 poolNft0 rewardTok0
        1000000000 10).toBox 5) poolInputs0) = some (i32AsU32 7) ∧
    poolResultNftToken (PoolBoxWrapper.new
      ((make_pool_box_candidate poolContract0 42 7 poolNft0 rewardTok0
        1000000000 10).toBox 5) poolInputs0) = some poolNft0 ∧
    poolResultRewardToken (PoolBoxWrapper.new
      ((make_pool_box_candidate poolContract0 42 7 poolNft0 rewardTok0
        1000000000 10).toBox 5) poolInputs0) = some rewardTok0 ∧
    (0 ≤ (7 : Int) → (7 : Int) < 2147483648 →
      ((i32AsU32 7 : Nat) : Int) = 7) :=
  c3_pool_box_roundtrip_amended poolInputs0 poolContract0 42 7 poolNft0
    rewardTok0 1000000000 10 5 (by decide) (by decide) (by decide)
